import Mathlib

/-!
Hardware counter accessors of `common/src/metrics.c` (CFU-Playground).

A shallow embedding of the three routines of `metrics.c`

* `get_csr_metrics`   : three `csrr` reads stored through three output pointers,
* `set_flash_control` : a write of the SPI flash counter control register, compiled in
  only when `LITESPI_CS_COUNTER` is defined,
* `get_flash_ticks`   : a `printf` of two memory-mapped words, or of a fixed message,

as functions on an explicit machine state, followed by the properties of the
specification that were checked against them.

Modelling conventions.

* `uint32_t` values are natural numbers reduced modulo `2 ^ 32` wherever the C code
  stores or loads them.
* The RISC-V CSR file and the data memory are two separate address spaces
  (`Hw.csr`, `Hw.mem`).  `Hw.mem` maps the address of a `uint32_t` object to its value;
  it holds ordinary RAM as well as the memory-mapped peripheral registers.
* Reading a register does not change it: the counters are a static backing store
  for the duration of a call (the specification assumes side-effect-free counters).
* Every access to a register or to memory is logged in `Machine.trace`.
* `Machine.stdout` is the standard output stream: the texts written by the `printf`
  calls made so far, in order.  The entry of a call is `none` when C leaves the
  behaviour of that call undefined, so that no text can be attributed to it.
* The constants of `metrics.h` / `generated/csr.h` and the build flag
  `LITESPI_CS_COUNTER` are not part of `metrics.c`; they are fields of `Config`.
-/

namespace Metrics

/-! ## Platform configuration -/

/-- Constants and feature flag that `metrics.c` takes from `metrics.h` and from the
generated `csr.h`.  `LITESPI_CS_COUNTER` is `true` when the macro is defined. -/
structure Config where
  LITESPI_CS_COUNTER : Bool
  CSR_ACC_COUNTER : Nat
  CSR_REFILL_COUNTER : Nat
  CSR_STALL_COUNTER : Nat
  CSR_SPI_FLASH_COUNTER_CONTROL_ADDR : Nat
  CSR_SPI_FLASH_COUNTER_COUNTER_ADDR : Nat
  CS_OFF : Nat
  CLK_OFF : Nat

/-! ## Machine state -/

/-- Number of values of a `uint32_t`. -/
def U32 : Nat := 2 ^ 32

/-- Number of values of an `unsigned long long` of 64 bits. -/
def U64 : Nat := 2 ^ 64

/-- Hardware state: the CSR file (indexed by CSR number) and the data address space
(indexed by the address of a 32-bit object). -/
structure Hw where
  csr : Nat → Nat
  mem : Nat → Nat

/-- One logged access to the hardware. -/
inductive Access where
  | csrRead (id : Nat)
  | csrWrite (id : Nat) (v : Nat)
  | memRead (addr : Nat)
  | memWrite (addr : Nat) (v : Nat)
deriving DecidableEq, Repr

/-- Whether an access modifies the hardware. -/
def Access.isWrite : Access → Bool
  | .csrRead _ => false
  | .csrWrite _ _ => true
  | .memRead _ => false
  | .memWrite _ _ => true

/-- Whether an access is an access to the CSR file. -/
def Access.isCsr : Access → Bool
  | .csrRead _ => true
  | .csrWrite _ _ => true
  | .memRead _ => false
  | .memWrite _ _ => false

/-- State threaded through the routines. -/
structure Machine where
  hw : Hw
  trace : List Access
  stdout : List (Option String)

/-- Instruction `csrr rd, id`: the 32-bit content of CSR `id`. -/
def csrr (m : Machine) (id : Nat) : Nat × Machine :=
  (m.hw.csr id % U32, { m with trace := m.trace ++ [Access.csrRead id] })

/-- Store of a `uint32_t` through a pointer: `*addr = v`. -/
def store32 (m : Machine) (addr v : Nat) : Machine :=
  { m with
    hw := { m.hw with mem := Function.update m.hw.mem addr (v % U32) }
    trace := m.trace ++ [Access.memWrite addr (v % U32)] }

/-- Load of a `uint32_t` through a pointer: `*addr`. -/
def load32 (m : Machine) (addr : Nat) : Nat × Machine :=
  (m.hw.mem addr % U32, { m with trace := m.trace ++ [Access.memRead addr] })

/-! ## `printf` -/

/-- Types of the variadic arguments that occur in `metrics.c`. -/
inductive CType where
  | uint32
  | ulonglong
deriving DecidableEq, Repr

/-- A variadic argument as passed by the caller: its type and its value. -/
structure CArg where
  ty : CType
  val : Nat
deriving DecidableEq, Repr

/-- Text produced by `printf` for a format and its variadic arguments, for a
fragment of the format language that covers the two formats of `metrics.c`: ordinary
characters are copied, `%%` prints a percent sign, `%u` prints an argument of a
32-bit unsigned type and `%llu` an `unsigned long long`, both in decimal.  The result
is `none` where C leaves the call undefined: a conversion without an argument, or
with an argument that does not have the type the conversion fetches
(C11 7.21.6.1p9); a conversion outside the fragment also yields `none`.  Surplus
arguments are ignored. -/
def formatText : List Char → List CArg → Option (List Char)
  | [], _ => some []
  | '%' :: '%' :: rest, args => (formatText rest args).map (fun t => '%' :: t)
  | '%' :: 'u' :: rest, args =>
    match args with
    | ⟨CType.uint32, v⟩ :: args' =>
      (formatText rest args').map (fun t => Nat.toDigits 10 (v % U32) ++ t)
    | _ => none
  | '%' :: 'l' :: 'l' :: 'u' :: rest, args =>
    match args with
    | ⟨CType.ulonglong, v⟩ :: args' =>
      (formatText rest args').map (fun t => Nat.toDigits 10 (v % U64) ++ t)
    | _ => none
  | '%' :: _, _ => none
  | c :: rest, args => (formatText rest args).map (fun t => c :: t)

/-- Call `printf(fmt, args...)`: the text of the call is appended to the output
stream.  The hardware is not accessed. -/
def printf (m : Machine) (fmt : String) (args : List CArg) : Machine :=
  { m with stdout := m.stdout ++ [(formatText fmt.toList args).map String.mk] }

/-! ## The routines of `metrics.c` -/

/-- Routine `get_csr_metrics(acc, refill, stall)`: three `csrr` instructions, each
with the pointee of one output pointer as its destination operand. -/
def get_csr_metrics (cfg : Config) (m : Machine) (acc refill stall : Nat) : Machine :=
  let r1 := csrr m cfg.CSR_ACC_COUNTER
  let m1 := store32 r1.2 acc r1.1
  let r2 := csrr m1 cfg.CSR_REFILL_COUNTER
  let m2 := store32 r2.2 refill r2.1
  let r3 := csrr m2 cfg.CSR_STALL_COUNTER
  store32 r3.2 stall r3.1

/-- Modelled from the spec: `spi_flash_counter_control_write`, the accessor of the
generated `csr.h`, which is absent from the sources; the specification has it
write the given 32-bit value to the designated control register. -/
def spi_flash_counter_control_write (cfg : Config) (m : Machine) (v : Nat) : Machine :=
  store32 m cfg.CSR_SPI_FLASH_COUNTER_CONTROL_ADDR v

/-- Routine `set_flash_control(val)`; the parameter is a `uint32_t`. -/
def set_flash_control (cfg : Config) (m : Machine) (val : Nat) : Machine :=
  if cfg.LITESPI_CS_COUNTER then
    spi_flash_counter_control_write cfg m (val % U32)
  else
    m

/-- Format of the report of `get_flash_ticks` when the counter is present. -/
def ticksFormat : String := "[CS active] %llu out of %llu cycles\n"

/-- Format of the report of `get_flash_ticks` when the counter is absent. -/
def absentFormat : String :=
  "[CS active] SPI flash activity counter not present in the SoC\n"

/-- Routine `get_flash_ticks()`.  With the counter present, `ticks_addr` is a
`uint32_t*`, so `ticks_addr[i]` is the 32-bit object at byte address
`ticks_addr + 4 * i`, and both variadic arguments of `printf` have type `uint32_t`. -/
def get_flash_ticks (cfg : Config) (m : Machine) : Machine :=
  if cfg.LITESPI_CS_COUNTER then
    let ticks_addr := cfg.CSR_SPI_FLASH_COUNTER_COUNTER_ADDR
    let r1 := load32 m (ticks_addr + 4 * cfg.CS_OFF)
    let r2 := load32 r1.2 (ticks_addr + 4 * cfg.CLK_OFF)
    printf r2.2 ticksFormat [⟨CType.uint32, r1.1⟩, ⟨CType.uint32, r2.1⟩]
  else
    printf m absentFormat []

/-! ## A concrete platform and machine state

The values below are sample values: they instantiate the general theorems and
serve as inputs of the evaluations. -/

/-- A platform whose build defines `LITESPI_CS_COUNTER`. -/
def presentConfig : Config :=
  { LITESPI_CS_COUNTER := true
    CSR_ACC_COUNTER := 0xB04
    CSR_REFILL_COUNTER := 0xB05
    CSR_STALL_COUNTER := 0xB06
    CSR_SPI_FLASH_COUNTER_CONTROL_ADDR := 0xF0005000
    CSR_SPI_FLASH_COUNTER_COUNTER_ADDR := 0xF0005004
    CS_OFF := 0
    CLK_OFF := 1 }

/-- The same platform built without `LITESPI_CS_COUNTER`. -/
def absentConfig : Config :=
  { presentConfig with LITESPI_CS_COUNTER := false }

/-- A hardware state: CSR `i` holds `i + 1`, the word at `0xF0005004` is `11`, the
word at `0xF0005008` is `22`, every other word is `7`. -/
def sampleHw : Hw :=
  { csr := fun i => i + 1
    mem := fun a => if a = 0xF0005004 then 11 else if a = 0xF0005008 then 22 else 7 }

/-- A machine in state `sampleHw` that has accessed and printed nothing yet. -/
def sampleMachine : Machine :=
  { hw := sampleHw, trace := [], stdout := [] }

/-- A hardware state whose two flash counter words are `4294967295` and `0`. -/
def edgeHw : Hw :=
  { csr := fun _ => 0
    mem := fun a => if a = 0xF0005004 then 4294967295 else 0 }

/-- A machine in state `edgeHw` that has accessed and printed nothing yet. -/
def edgeMachine : Machine :=
  { hw := edgeHw, trace := [], stdout := [] }

/-! ## Auxiliary facts -/

/-- Reading a CSR leaves the hardware and the output stream as they are. -/
theorem csrr_hw (m : Machine) (id : Nat) :
    (csrr m id).2.hw = m.hw ∧ (csrr m id).2.stdout = m.stdout := ⟨rfl, rfl⟩

/-- Loading a word leaves the hardware and the output stream as they are. -/
theorem load32_hw (m : Machine) (addr : Nat) :
    (load32 m addr).2.hw = m.hw ∧ (load32 m addr).2.stdout = m.stdout := ⟨rfl, rfl⟩

/-- A loaded word is a 32-bit value. -/
theorem load32_lt (m : Machine) (addr : Nat) : (load32 m addr).1 < U32 :=
  Nat.mod_lt _ (by decide)

/-- A call of `printf` leaves the hardware and the access log as they are. -/
theorem printf_hw (m : Machine) (fmt : String) (args : List CArg) :
    (printf m fmt args).hw = m.hw ∧ (printf m fmt args).trace = m.trace := ⟨rfl, rfl⟩

/-- A store changes the addressed word only, and never the CSR file. -/
theorem store32_mem (m : Machine) (addr v a : Nat) :
    (store32 m addr v).hw.mem a = (if a = addr then v % U32 else m.hw.mem a) ∧
      (store32 m addr v).hw.csr = m.hw.csr := by
  refine ⟨?_, rfl⟩
  by_cases h : a = addr
  · subst h
    simp [store32]
  · simp [store32, Function.update, h]

/-- With arguments of the type its conversions fetch, the format of the tick report
yields the two numbers in decimal inside the fixed frame. -/
theorem formatText_ticks_ulonglong (a b : Nat) :
    formatText ticksFormat.toList [⟨CType.ulonglong, a⟩, ⟨CType.ulonglong, b⟩] =
      some ("[CS active] ".toList ++ (Nat.toDigits 10 (a % U64) ++
        (" out of ".toList ++ (Nat.toDigits 10 (b % U64) ++ " cycles\n".toList)))) := rfl

/-- With the two `uint32_t` arguments that `get_flash_ticks` passes, the first `%llu`
conversion of the tick report meets an argument of another type. -/
theorem formatText_ticks_uint32 (a b : Nat) :
    formatText ticksFormat.toList [⟨CType.uint32, a⟩, ⟨CType.uint32, b⟩] = none := rfl

/-- With `LITESPI_CS_COUNTER` defined, the text of the `printf` call of
`get_flash_ticks` is undefined whatever the two counter words are. -/
theorem get_flash_ticks_present_stdout (cfg : Config) (m : Machine)
    (h : cfg.LITESPI_CS_COUNTER = true) :
    (get_flash_ticks cfg m).stdout = m.stdout ++ [none] := by
  unfold get_flash_ticks
  rw [h]
  rfl

/-! ## `get_csr_metrics` -/

/-- C1: for any content of the three counter CSRs (32-bit registers) and three
distinct output locations, after `get_csr_metrics(acc, refill, stall)` the word at
`acc` is the value of `CSR_ACC_COUNTER`, the word at `refill` the value of
`CSR_REFILL_COUNTER` and the word at `stall` the value of `CSR_STALL_COUNTER`, the
register values being those of the state in which the routine was called. -/
theorem get_csr_metrics_outputs (cfg : Config) (m : Machine) (acc refill stall : Nat)
    (har : acc ≠ refill) (has : acc ≠ stall) (hrs : refill ≠ stall)
    (hacc : m.hw.csr cfg.CSR_ACC_COUNTER < U32)
    (hrefill : m.hw.csr cfg.CSR_REFILL_COUNTER < U32)
    (hstall : m.hw.csr cfg.CSR_STALL_COUNTER < U32) :
    (get_csr_metrics cfg m acc refill stall).hw.mem acc = m.hw.csr cfg.CSR_ACC_COUNTER ∧
    (get_csr_metrics cfg m acc refill stall).hw.mem refill
      = m.hw.csr cfg.CSR_REFILL_COUNTER ∧
    (get_csr_metrics cfg m acc refill stall).hw.mem stall
      = m.hw.csr cfg.CSR_STALL_COUNTER := by
  simp [get_csr_metrics, store32, csrr, Function.update, har, has, hrs, Ne.symm hrs,
    Nat.mod_eq_of_lt hacc, Nat.mod_eq_of_lt hrefill, Nat.mod_eq_of_lt hstall]

/-- Instance of C1 on the sample platform, with outputs at `100`, `104`, `108`. -/
theorem get_csr_metrics_outputs_witness :
    (100 : Nat) ≠ 104 ∧ (100 : Nat) ≠ 108 ∧ (104 : Nat) ≠ 108 ∧
    sampleMachine.hw.csr presentConfig.CSR_ACC_COUNTER < U32 ∧
    sampleMachine.hw.csr presentConfig.CSR_REFILL_COUNTER < U32 ∧
    sampleMachine.hw.csr presentConfig.CSR_STALL_COUNTER < U32 ∧
    (get_csr_metrics presentConfig sampleMachine 100 104 108).hw.mem 100 = 2821 ∧
    (get_csr_metrics presentConfig sampleMachine 100 104 108).hw.mem 104 = 2822 ∧
    (get_csr_metrics presentConfig sampleMachine 100 104 108).hw.mem 108 = 2823 :=
  ⟨by decide, by decide, by decide, by decide, by decide, by decide,
    get_csr_metrics_outputs presentConfig sampleMachine 100 104 108
      (by decide) (by decide) (by decide) (by decide) (by decide) (by decide)⟩

/-- C6: `get_csr_metrics` leaves the whole CSR file, the three counters included,
as it was, and leaves every word of the data address space other than the three
output locations as it was; it prints nothing. -/
theorem get_csr_metrics_frame (cfg : Config) (m : Machine) (acc refill stall a : Nat)
    (ha : a ≠ acc) (hr : a ≠ refill) (hs : a ≠ stall) :
    (get_csr_metrics cfg m acc refill stall).hw.csr = m.hw.csr ∧
    (get_csr_metrics cfg m acc refill stall).hw.mem a = m.hw.mem a ∧
    (get_csr_metrics cfg m acc refill stall).stdout = m.stdout := by
  refine ⟨rfl, ?_, rfl⟩
  simp [get_csr_metrics, store32, csrr, Function.update, ha, hr, hs]

/-- Instance of C6 on the sample platform: the word at `0xF0005004` is kept. -/
theorem get_csr_metrics_frame_witness :
    (0xF0005004 : Nat) ≠ 100 ∧ (0xF0005004 : Nat) ≠ 104 ∧ (0xF0005004 : Nat) ≠ 108 ∧
    (get_csr_metrics presentConfig sampleMachine 100 104 108).hw.csr
      = sampleMachine.hw.csr ∧
    (get_csr_metrics presentConfig sampleMachine 100 104 108).hw.mem 0xF0005004 = 11 ∧
    (get_csr_metrics presentConfig sampleMachine 100 104 108).stdout = [] :=
  ⟨by decide, by decide, by decide,
    get_csr_metrics_frame presentConfig sampleMachine 100 104 108 0xF0005004
      (by decide) (by decide) (by decide)⟩

/-- C8: a call of `get_csr_metrics` makes exactly six accesses: a read of
`CSR_ACC_COUNTER` followed by the store of the value read to `acc`, the same for
`CSR_REFILL_COUNTER` and `refill`, and the same for `CSR_STALL_COUNTER` and `stall`.
Hence the accesses to the CSR file are three reads, one per counter and in that
order, and no write: the CSR file is left as it was.  The three stores take effect:
the data address space after the call is the one before it with the value of the
accumulator counter written at `acc`, then the value of the refill counter at
`refill`, then the value of the stall counter at `stall`. -/
theorem get_csr_metrics_accesses (cfg : Config) (m : Machine) (acc refill stall : Nat) :
    (get_csr_metrics cfg m acc refill stall).trace =
        m.trace ++
          [Access.csrRead cfg.CSR_ACC_COUNTER,
           Access.memWrite acc (m.hw.csr cfg.CSR_ACC_COUNTER % U32),
           Access.csrRead cfg.CSR_REFILL_COUNTER,
           Access.memWrite refill (m.hw.csr cfg.CSR_REFILL_COUNTER % U32),
           Access.csrRead cfg.CSR_STALL_COUNTER,
           Access.memWrite stall (m.hw.csr cfg.CSR_STALL_COUNTER % U32)] ∧
    ((get_csr_metrics cfg m acc refill stall).trace.drop m.trace.length).filter
        Access.isCsr =
      [Access.csrRead cfg.CSR_ACC_COUNTER, Access.csrRead cfg.CSR_REFILL_COUNTER,
       Access.csrRead cfg.CSR_STALL_COUNTER] ∧
    (get_csr_metrics cfg m acc refill stall).hw.csr = m.hw.csr ∧
    (get_csr_metrics cfg m acc refill stall).hw.mem =
      Function.update
        (Function.update
          (Function.update m.hw.mem acc (m.hw.csr cfg.CSR_ACC_COUNTER % U32))
          refill (m.hw.csr cfg.CSR_REFILL_COUNTER % U32))
        stall (m.hw.csr cfg.CSR_STALL_COUNTER % U32) ∧
    (get_csr_metrics cfg m acc refill stall).hw.mem stall
      = m.hw.csr cfg.CSR_STALL_COUNTER % U32 := by
  have h : (get_csr_metrics cfg m acc refill stall).trace =
        m.trace ++
          [Access.csrRead cfg.CSR_ACC_COUNTER,
           Access.memWrite acc (m.hw.csr cfg.CSR_ACC_COUNTER % U32),
           Access.csrRead cfg.CSR_REFILL_COUNTER,
           Access.memWrite refill (m.hw.csr cfg.CSR_REFILL_COUNTER % U32),
           Access.csrRead cfg.CSR_STALL_COUNTER,
           Access.memWrite stall (m.hw.csr cfg.CSR_STALL_COUNTER % U32)] := by
    simp [get_csr_metrics, store32, csrr]
  have hmem : (get_csr_metrics cfg m acc refill stall).hw.mem =
      Function.update
        (Function.update
          (Function.update m.hw.mem acc (m.hw.csr cfg.CSR_ACC_COUNTER % U32))
          refill (m.hw.csr cfg.CSR_REFILL_COUNTER % U32))
        stall (m.hw.csr cfg.CSR_STALL_COUNTER % U32) := by
    simp [get_csr_metrics, store32, csrr]
  refine ⟨h, ?_, rfl, hmem, ?_⟩
  · rw [h, List.drop_left]
    rfl
  · rw [hmem, Function.update_same]

/-! ## `set_flash_control` -/

/-- C4: with `LITESPI_CS_COUNTER` defined and `val` a 32-bit value,
`set_flash_control(val)` leaves the SPI flash counter control register holding
`val`; every CSR and every other word of the data address space holds the value it
held before, and the single access made is the write of `val` to that register. -/
theorem set_flash_control_present (cfg : Config) (m : Machine) (val a : Nat)
    (h : cfg.LITESPI_CS_COUNTER = true) (hval : val < U32)
    (ha : a ≠ cfg.CSR_SPI_FLASH_COUNTER_CONTROL_ADDR) :
    (set_flash_control cfg m val).hw.mem cfg.CSR_SPI_FLASH_COUNTER_CONTROL_ADDR = val ∧
    (set_flash_control cfg m val).hw.mem a = m.hw.mem a ∧
    (set_flash_control cfg m val).hw.csr = m.hw.csr ∧
    (set_flash_control cfg m val).trace =
      m.trace ++ [Access.memWrite cfg.CSR_SPI_FLASH_COUNTER_CONTROL_ADDR val] := by
  simp [set_flash_control, spi_flash_counter_control_write, store32, Function.update, h,
    ha, Nat.mod_eq_of_lt hval]

/-- Instance of C4: writing `3` on the sample platform. -/
theorem set_flash_control_present_witness :
    presentConfig.LITESPI_CS_COUNTER = true ∧ 3 < U32 ∧
    (0xF0005004 : Nat) ≠ presentConfig.CSR_SPI_FLASH_COUNTER_CONTROL_ADDR ∧
    (set_flash_control presentConfig sampleMachine 3).hw.mem 0xF0005000 = 3 ∧
    (set_flash_control presentConfig sampleMachine 3).hw.mem 0xF0005004 = 11 ∧
    (set_flash_control presentConfig sampleMachine 3).hw.csr = sampleMachine.hw.csr ∧
    (set_flash_control presentConfig sampleMachine 3).trace
      = [Access.memWrite 0xF0005000 3] :=
  ⟨rfl, by decide, by decide,
    set_flash_control_present presentConfig sampleMachine 3 0xF0005004 rfl
      (by decide) (by decide)⟩

/-- C5: without `LITESPI_CS_COUNTER`, `set_flash_control(val)` returns the machine
it was given: no register or memory word changes, no access is logged, nothing is
printed. -/
theorem set_flash_control_absent (cfg : Config) (m : Machine) (val : Nat)
    (h : cfg.LITESPI_CS_COUNTER = false) :
    set_flash_control cfg m val = m := by
  simp [set_flash_control, h]

/-- Instance of C5: writing `3` on the sample platform built without the counter. -/
theorem set_flash_control_absent_witness :
    absentConfig.LITESPI_CS_COUNTER = false ∧
    set_flash_control absentConfig sampleMachine 3 = sampleMachine :=
  ⟨rfl, set_flash_control_absent absentConfig sampleMachine 3 rfl⟩

/-! ## `get_flash_ticks` -/

/-- C3, as stated, fails: on the sample platform built without
`LITESPI_CS_COUNTER` the text printed by `get_flash_ticks` is not the bare message
`[CS active] SPI flash activity counter not present in the SoC`. -/
theorem get_flash_ticks_absent_not_bare :
    (get_flash_ticks absentConfig sampleMachine).stdout ≠
      sampleMachine.stdout ++
        [some "[CS active] SPI flash activity counter not present in the SoC"] := by
  decide

/-- C3, amended: without `LITESPI_CS_COUNTER`, in every machine state,
`get_flash_ticks` prints exactly the message
`[CS active] SPI flash activity counter not present in the SoC` followed by one
newline character. -/
theorem get_flash_ticks_absent_line (cfg : Config) (m : Machine)
    (h : cfg.LITESPI_CS_COUNTER = false) :
    (get_flash_ticks cfg m).stdout =
      m.stdout ++
        [some ("[CS active] SPI flash activity counter not present in the SoC" ++ "\n")] := by
  unfold get_flash_ticks
  rw [h]
  rfl

/-- Instance of the amended C3 on the sample platform built without the counter. -/
theorem get_flash_ticks_absent_line_witness :
    absentConfig.LITESPI_CS_COUNTER = false ∧
    (get_flash_ticks absentConfig sampleMachine).stdout =
      [some ("[CS active] SPI flash activity counter not present in the SoC" ++ "\n")] :=
  ⟨rfl, get_flash_ticks_absent_line absentConfig sampleMachine rfl⟩

/-- C2 at a failing input: on the sample platform, with `11` at `CS_OFF` and `22` at
`CLK_OFF`, `get_flash_ticks` makes one `printf` call whose text is undefined, because
both `%llu` conversions are given a `uint32_t`; the output is not the line
`[CS active] 11 out of 22 cycles`. -/
theorem get_flash_ticks_present_sample :
    (get_flash_ticks presentConfig sampleMachine).stdout = [none] ∧
    (get_flash_ticks presentConfig sampleMachine).stdout
      ≠ [some "[CS active] 11 out of 22 cycles\n"] ∧
    (get_flash_ticks presentConfig sampleMachine).stdout
      ≠ [some "[CS active] 11 out of 22 cycles"] := by
  decide

/-- C7 at a failing input: on the sample platform, with `4294967295` at `CS_OFF` and
`0` at `CLK_OFF`, the two words that `get_flash_ticks` loads are 32-bit values, but
the `printf` call fetches them with `%llu` and its text is undefined: no pair of
numbers below `2 ^ 32` is printed. -/
theorem get_flash_ticks_present_edge :
    (load32 edgeMachine (presentConfig.CSR_SPI_FLASH_COUNTER_COUNTER_ADDR
      + 4 * presentConfig.CS_OFF)).1 = 4294967295 ∧
    (load32 edgeMachine (presentConfig.CSR_SPI_FLASH_COUNTER_COUNTER_ADDR
      + 4 * presentConfig.CLK_OFF)).1 = 0 ∧
    (get_flash_ticks presentConfig edgeMachine).stdout = [none] ∧
    (get_flash_ticks presentConfig edgeMachine).stdout
      ≠ [some "[CS active] 4294967295 out of 0 cycles\n"] := by
  decide

/-- C9: in both builds and in every machine state, `get_flash_ticks` returns a
machine with the same hardware state (CSR file and data address space); the accesses
it logs are the two loads of the counter words when `LITESPI_CS_COUNTER` is defined
and none otherwise, so none is a write; and the output stream grows by the entry of
one `printf` call. -/
theorem get_flash_ticks_hw_unchanged (cfg : Config) (m : Machine) :
    (get_flash_ticks cfg m).hw = m.hw ∧
    (get_flash_ticks cfg m).trace =
      m.trace ++
        (if cfg.LITESPI_CS_COUNTER then
          [Access.memRead (cfg.CSR_SPI_FLASH_COUNTER_COUNTER_ADDR + 4 * cfg.CS_OFF),
           Access.memRead (cfg.CSR_SPI_FLASH_COUNTER_COUNTER_ADDR + 4 * cfg.CLK_OFF)]
        else []) ∧
    (∀ e ∈ (get_flash_ticks cfg m).trace.drop m.trace.length, e.isWrite = false) ∧
    ∃ text, (get_flash_ticks cfg m).stdout = m.stdout ++ [text] := by
  cases h : cfg.LITESPI_CS_COUNTER <;>
    simp [get_flash_ticks, h, printf, load32, Access.isWrite]

end Metrics
